import Mathlib

/-!
Shallow embedding of the SurfAid namescan core (src/models.py, src/validate.py):
the entity model with its rationale rule chains, the person content hash (MD5),
the report builder (verdict computation, per-row rationale creation from the
response cache) and the screening client (send_request over an explicit file
system and network model).  Machine integers are Nat with explicit mod 2^32
where the MD5 algorithm overflows.
-/

/-! ### Python-style string helpers -/

/-- Truthiness of a Python Optional[str]: None and the empty string are falsy. -/
def truthyOpt : Option String → Bool
  | none => false
  | some s => !(s == "")

/-- Python str(x) for an Optional[str] as interpolated by an f-string:
None prints as the literal text None. -/
def pyOptStr : Option String → String
  | none => "None"
  | some s => s

/-- Python `x or ""` for an Optional[str]. -/
def orEmpty : Option String → String
  | none => ""
  | some s => s

/-- Does the haystack start with the needle (list of characters)? -/
def strStarts : List Char → List Char → Bool
  | [], _ => true
  | _ :: _, [] => false
  | n :: ns, h :: hs => n == h && strStarts ns hs

/-- Python `needle in hay` substring test on character lists. -/
def containsSub (needle : List Char) : List Char → Bool
  | [] => needle.isEmpty
  | h :: t => strStarts needle (h :: t) || containsSub needle t

/-- Python `needle in hay` on strings. -/
def strIn (needle hay : String) : Bool :=
  containsSub needle.toList hay.toList

/-- ASCII lower-casing of one character, as Python str.lower does on ASCII. -/
def asciiLower (c : Char) : Char :=
  if 65 ≤ c.toNat && c.toNat ≤ 90 then Char.ofNat (c.toNat + 32) else c

/-- ASCII lower-casing of a string (all strings the code inspects are ASCII). -/
def lowerStr (s : String) : String :=
  ⟨s.toList.map asciiLower⟩

/-! ### MD5 (RFC 1321) over byte lists, with Nat arithmetic mod 2^32 -/

def mask32 : Nat := 4294967295

def add32 (a b : Nat) : Nat := (a + b) % 4294967296

def not32 (x : Nat) : Nat := mask32 ^^^ x

def rotl32 (x s : Nat) : Nat :=
  ((x <<< s) ||| (x >>> (32 - s))) &&& mask32

/-- The 64 MD5 sine-derived constants. -/
def md5K : List Nat :=
  [0xd76aa478, 0xe8c7b756, 0x242070db, 0xc1bdceee,
   0xf57c0faf, 0x4787c62a, 0xa8304613, 0xfd469501,
   0x698098d8, 0x8b44f7af, 0xffff5bb1, 0x895cd7be,
   0x6b901122, 0xfd987193, 0xa679438e, 0x49b40821,
   0xf61e2562, 0xc040b340, 0x265e5a51, 0xe9b6c7aa,
   0xd62f105d, 0x02441453, 0xd8a1e681, 0xe7d3fbc8,
   0x21e1cde6, 0xc33707d6, 0xf4d50d87, 0x455a14ed,
   0xa9e3e905, 0xfcefa3f8, 0x676f02d9, 0x8d2a4c8a,
   0xfffa3942, 0x8771f681, 0x6d9d6122, 0xfde5380c,
   0xa4beea44, 0x4bdecfa9, 0xf6bb4b60, 0xbebfbc70,
   0x289b7ec6, 0xeaa127fa, 0xd4ef3085, 0x04881d05,
   0xd9d4d039, 0xe6db99e5, 0x1fa27cf8, 0xc4ac5665,
   0xf4292244, 0x432aff97, 0xab9423a7, 0xfc93a039,
   0x655b59c3, 0x8f0ccc92, 0xffeff47d, 0x85845dd1,
   0x6fa87e4f, 0xfe2ce6e0, 0xa3014314, 0x4e0811a1,
   0xf7537e82, 0xbd3af235, 0x2ad7d2bb, 0xeb86d391]

/-- The 64 MD5 per-round left-rotation amounts. -/
def md5S : List Nat :=
  [7, 12, 17, 22, 7, 12, 17, 22, 7, 12, 17, 22, 7, 12, 17, 22,
   5, 9, 14, 20, 5, 9, 14, 20, 5, 9, 14, 20, 5, 9, 14, 20,
   4, 11, 16, 23, 4, 11, 16, 23, 4, 11, 16, 23, 4, 11, 16, 23,
   6, 10, 15, 21, 6, 10, 15, 21, 6, 10, 15, 21, 6, 10, 15, 21]

def zeroBytes : Nat → List Nat
  | 0 => []
  | n + 1 => 0 :: zeroBytes n

/-- The low `count` bytes of `n` in little-endian order. -/
def leBytes (n : Nat) : Nat → List Nat
  | 0 => []
  | k + 1 => (n % 256) :: leBytes (n / 256) k

/-- MD5 padding: append 0x80, zero bytes to 56 mod 64, then the bit length
as a 64-bit little-endian quantity. -/
def md5pad (msg : List Nat) : List Nat :=
  let l := msg.length
  msg ++ [0x80] ++ zeroBytes ((119 - l % 64) % 64) ++ leBytes (l * 8) 8

/-- Interpret a byte list as little-endian 32-bit words. -/
def toWords : List Nat → List Nat
  | a :: b :: c :: d :: rest =>
      (a + 256 * b + 65536 * c + 16777216 * d) :: toWords rest
  | _ => []

/-- One MD5 round operation: index i from 0 to 63 over message words m. -/
def md5step (m : List Nat) (st : Nat × Nat × Nat × Nat) (i : Nat) :
    Nat × Nat × Nat × Nat :=
  let (a, b, c, d) := st
  let f :=
    if i < 16 then (b &&& c) ||| (not32 b &&& d)
    else if i < 32 then (d &&& b) ||| (not32 d &&& c)
    else if i < 48 then b ^^^ c ^^^ d
    else c ^^^ (b ||| not32 d)
  let g :=
    if i < 16 then i
    else if i < 32 then (5 * i + 1) % 16
    else if i < 48 then (3 * i + 5) % 16
    else (7 * i) % 16
  let tmp := add32 (add32 (add32 a f) (md5K.getD i 0)) (m.getD g 0)
  (d, add32 b (rotl32 tmp (md5S.getD i 0)), b, c)

/-- Process one 64-byte block, updating the running digest state. -/
def md5block (chunk : List Nat) (st : Nat × Nat × Nat × Nat) :
    Nat × Nat × Nat × Nat :=
  let m := toWords chunk
  let (a0, b0, c0, d0) := st
  let (a, b, c, d) := (List.range 64).foldl (md5step m) st
  (add32 a0 a, add32 b0 b, add32 c0 c, add32 d0 d)

/-- Process `n` consecutive 64-byte blocks of `bytes`. -/
def md5blocksGo : Nat → List Nat → Nat × Nat × Nat × Nat → Nat × Nat × Nat × Nat
  | 0, _, st => st
  | n + 1, bytes, st => md5blocksGo n (bytes.drop 64) (md5block (bytes.take 64) st)

def hexDigit (n : Nat) : Char :=
  if n < 10 then Char.ofNat (48 + n) else Char.ofNat (87 + n)

def byteHex (b : Nat) : List Char :=
  [hexDigit (b / 16 % 16), hexDigit (b % 16)]

/-- Hex rendering of one 32-bit word, little-endian byte order as MD5 digests use. -/
def wordHex (w : Nat) : List Char :=
  byteHex (w % 256) ++ byteHex (w / 256 % 256) ++
  byteHex (w / 65536 % 256) ++ byteHex (w / 16777216 % 256)

/-- The MD5 hex digest of a byte list. -/
def md5hex (msg : List Nat) : String :=
  let padded := md5pad msg
  let (a, b, c, d) :=
    md5blocksGo (padded.length / 64) padded
      (0x67452301, 0xefcdab89, 0x98badcfe, 0x10325476)
  ⟨wordHex a ++ wordHex b ++ wordHex c ++ wordHex d⟩

/-- UTF-8 bytes of one code point. -/
def utf8Bytes (c : Nat) : List Nat :=
  if c < 0x80 then [c]
  else if c < 0x800 then [0xc0 + c / 64, 0x80 + c % 64]
  else if c < 0x10000 then [0xe0 + c / 4096, 0x80 + c / 64 % 64, 0x80 + c % 64]
  else [0xf0 + c / 262144, 0x80 + c / 4096 % 64, 0x80 + c / 64 % 64, 0x80 + c % 64]

/-- Python s.encode of a string as a byte list. -/
def utf8Encode (s : String) : List Nat :=
  (s.toList.map (fun c => utf8Bytes c.toNat)).flatten

/-- hashlib.md5 of the UTF-8 encoding of a string, as a hex digest string. -/
def md5str (s : String) : String :=
  md5hex (utf8Encode s)

/-! ### Entity model (src/models.py and src/validate.py)

The Person dataclass has the same field list in both files; only the
`rationale` property differs between the two snapshots, so one Lean structure
carries both rule chains as `Models.Person.rationale` (src/models.py) and
`Validate.Person.rationale` (src/validate.py). -/

inductive Gender
  | male
  | female
deriving DecidableEq, Repr

/-- The str value of the Gender str-enum. -/
def Gender.value : Gender → String
  | .male => "male"
  | .female => "female"

inductive ListType
  | pep
  | sanction
deriving DecidableEq, Repr

structure DateOfBirth where
  date : String
deriving DecidableEq, Repr

structure Reference where
  name : String
  id_in_list : Option String
deriving DecidableEq, Repr

structure OtherName where
  name : String
  type : String
deriving DecidableEq, Repr

structure PoliticalParty where
  title : String
deriving DecidableEq, Repr

structure Role where
  title : String
deriving DecidableEq, Repr

structure PlaceOfBirth where
  location : String
  country : Option String
deriving DecidableEq, Repr

/-- The Person matched-entity record (identical field lists in src/models.py
lines 87-108 and src/validate.py lines 85-106).  match_rate is a float in the
source; no claim depends on it, so it is carried as an opaque Nat. -/
structure Person where
  name : String
  update_at : Option String
  category : String
  deceased : Bool
  deceased_date : Option String
  gender : Option Gender
  original_script_name : Option String
  dates_of_birth : List DateOfBirth
  places_of_birth : List PlaceOfBirth
  reference_type : String
  references : List Reference
  program : Option String
  occupations : List String
  political_parties : List PoliticalParty
  roles : List Role
  nationality : String
  citizenship : String
  other_names : List OtherName
  summary : Option String
  match_rate : Nat
deriving DecidableEq, Repr

/-- Person.entity_summary (identical in src/models.py lines 140-155 and
src/validate.py lines 138-153): the explicit free-text summary when truthy,
otherwise name (or comma-joined alias names), then gender, then first date of
birth, then first birthplace, each clause omitted when its source is empty. -/
def Person.entity_summary (p : Person) : String :=
  if truthyOpt p.summary then
    orEmpty p.summary
  else
    let name :=
      if p.other_names.isEmpty then p.name
      else String.intercalate ", " (p.other_names.map (fun o => o.name))
    let origin :=
      match p.places_of_birth with
      | [] => ""
      | pob :: _ => ", in " ++ pob.location
    let born :=
      match p.dates_of_birth with
      | [] => ""
      | dob :: _ => ", born " ++ dob.date
    let gender :=
      match p.gender with
      | none => ""
      | some g => ", " ++ g.value
    name ++ gender ++ born ++ origin

/-- Person.politician_summary (identical in both files): the entity summary
with an optional political-party affiliation suffix. -/
def Person.politician_summary (p : Person) : String :=
  let affiliation :=
    match p.political_parties with
    | [] => ""
    | party :: _ => " for " ++ party.title
  "Politician, " ++ p.entity_summary ++ affiliation

/-- Is the program field truthy and does its lower-casing contain syr? -/
def Person.syrTrigger (p : Person) : Bool :=
  truthyOpt p.program && strIn "syr" (lowerStr (orEmpty p.program))

/-- Is the citizenship non-empty and its lower-casing free of indonesia? -/
def Person.foreignTrigger (p : Person) : Bool :=
  !(p.citizenship == "") && !(strIn "indonesia" (lowerStr p.citizenship))

/-- Person.rationale of src/models.py lines 110-130: deceased, original
script name, syr program, then CITIZENSHIP, then politician, then roles. -/
def Models.Person.rationale (p : Person) : Option String :=
  if p.deceased then
    some ("Deceased " ++ pyOptStr p.deceased_date)
  else if truthyOpt p.original_script_name then
    some ("Not an Indonesian name: " ++ pyOptStr p.original_script_name)
  else if p.syrTrigger then
    some "Suspect in Syrian conflict"
  else if p.foreignTrigger then
    some ("Foreigner: " ++ p.citizenship)
  else if p.occupations.contains "politician" then
    some p.politician_summary
  else
    match p.roles with
    | role :: _ => some ("Public figure: " ++ role.title)
    | [] => none

/-- Person.rationale of src/validate.py lines 108-128: deceased, original
script name, syr program, then POLITICIAN, then roles, then citizenship. -/
def Validate.Person.rationale (p : Person) : Option String :=
  if p.deceased then
    some ("Deceased " ++ pyOptStr p.deceased_date)
  else if truthyOpt p.original_script_name then
    some ("Not an Indonesian name: " ++ pyOptStr p.original_script_name)
  else if p.syrTrigger then
    some "Suspect in Syrian conflict"
  else if p.occupations.contains "politician" then
    some p.politician_summary
  else
    match p.roles with
    | role :: _ => some ("Public figure: " ++ role.title)
    | [] =>
      if p.foreignTrigger then
        some ("Foreigner: " ++ p.citizenship)
      else
        none

/-! ### Subjects to scan and their content hashes -/

/-- The PersonToScan record (identical field lists in src/models.py lines
322-334 and src/validate.py lines 253-265). -/
structure PersonToScan where
  name : String
  first_name : Option String
  middle_name : Option String
  last_name : Option String
  gender : Option Gender
  dob : Option String
  country : String
  list_type : Option ListType
  included_lists : Option String
  excluded_lists : Option String
  match_rate : Nat := 50
deriving DecidableEq, Repr

/-- Python (gender or "") on an Optional[Gender] str-enum: the enum IS a str,
so joining yields its value. -/
def genderOrEmpty : Option Gender → String
  | none => ""
  | some g => g.value

/-- Python field.replace with the dash removed everywhere. -/
def stripDash (s : String) : String :=
  ⟨s.toList.filter (fun c => !(c == '-'))⟩

/-- PersonToScan.hash of src/validate.py lines 267-278: MD5 of the plain
concatenation of name, dob, first name, last name and gender. -/
def Validate.PersonToScan.hash (p : PersonToScan) : String :=
  md5str (p.name ++ orEmpty p.dob ++ orEmpty p.first_name ++
    orEmpty p.last_name ++ genderOrEmpty p.gender)

/-- PersonToScan.hash of src/models.py lines 336-346: as in validate.py but
every dash is stripped from each field before concatenation. -/
def Models.PersonToScan.hash (p : PersonToScan) : String :=
  md5str (stripDash p.name ++ stripDash (orEmpty p.dob) ++
    stripDash (orEmpty p.first_name) ++ stripDash (orEmpty p.last_name) ++
    stripDash (genderOrEmpty p.gender))

/-! ### Report builder (src/validate.py lines 394-514)

The cached response file for a subject either is absent, holds JSON that does
not parse, or parses into a PersonScanResult.  The Python dict
matches_with_explanations is carried as the association list of its items in
insertion order (scan_result.persons order); the claims below depend only on
the counts and joined strings derived from that list. -/

structure PersonScanResult where
  date : String
  scan_id : String
  number_of_matches : Nat
  number_of_pep_matches : Nat
  number_of_sip_matches : Nat
  persons : List Person
deriving DecidableEq, Repr

structure Rationale where
  entity_to_scan : PersonToScan
  matches_with_explanations : List (Person × Option String)
deriving DecidableEq, Repr

/-- Rationale.matches: the number of entries of the dict. -/
def Rationale.matches (r : Rationale) : Nat :=
  r.matches_with_explanations.length

/-- Rationale.explained: the number of entries with a non-None explanation. -/
def Rationale.explained (r : Rationale) : Nat :=
  (r.matches_with_explanations.filter (fun me => me.2.isSome)).length

/-- Rationale.rationale: the comma-joined name-explanation pairs of the
explained matches. -/
def Rationale.rationaleText (r : Rationale) : String :=
  String.intercalate ", "
    (r.matches_with_explanations.filterMap
      (fun me => me.2.map (fun ex => me.1.name ++ ": " ++ ex)))

/-- Rationale.no_rationale: the comma-joined name-summary pairs of the
unexplained matches. -/
def Rationale.no_rationale (r : Rationale) : String :=
  String.intercalate ", "
    (r.matches_with_explanations.filterMap
      (fun me =>
        match me.2 with
        | none => some (me.1.name ++ ": " ++ me.1.entity_summary)
        | some _ => none))

/-- add_rationale.to_verdict of src/validate.py lines 470-475: note the
explained-equals-matches test comes FIRST. -/
def to_verdict (r : Rationale) : String :=
  if r.explained = r.matches then "False positive"
  else if r.matches = 0 then "No match"
  else "Needs explanation"

/-- One cached response file: unparseable text, or a parsed scan result. -/
inductive CacheFile
  | malformed
  | scan (result : PersonScanResult)
deriving DecidableEq, Repr

/-- The cache directory: subject hash to the content of hash.resp.json;
absence from the list is a missing file. -/
abbrev Cache := List (String × CacheFile)

def lookupCache : Cache → String → Option CacheFile
  | [], _ => none
  | (k, v) :: rest, h => if k = h then some v else lookupCache rest h

/-- The two exceptions create_rationale can raise: FileNotFoundError from
read_text on a missing file, or a json.loads decode error. -/
inductive CacheError
  | missingFile (hash : String)
  | badJson (hash : String)
deriving DecidableEq, Repr

/-- create_rationale of src/validate.py lines 492-514: read the subject's
hash.resp.json, parse it, and pair every matched person with its rationale.
There is no exception handler in the source, so a missing or malformed file
propagates as an error. -/
def create_rationale (cache : Cache) (entity : PersonToScan) :
    Except CacheError Rationale :=
  match lookupCache cache (Validate.PersonToScan.hash entity) with
  | none => .error (.missingFile (Validate.PersonToScan.hash entity))
  | some .malformed => .error (.badJson (Validate.PersonToScan.hash entity))
  | some (.scan sr) =>
      .ok ⟨entity, sr.persons.map (fun m => (m, Validate.Person.rationale m))⟩

/-- The per-subject loop of add_rationale (src/validate.py lines 459-468):
a Python list comprehension, so the first exception aborts the whole list. -/
def rationaleRows (cache : Cache) : List PersonToScan →
    Except CacheError (List Rationale)
  | [] => .ok []
  | e :: rest =>
    match create_rationale cache e with
    | .error err => .error err
    | .ok r =>
      match rationaleRows cache rest with
      | .error err => .error err
      | .ok rs => .ok (r :: rs)

/-- The five derived columns add_rationale assigns per row. -/
structure ReportRow where
  unique_id : String
  matched : Bool
  verdict : String
  explanation : String
  need_explanation : String
deriving DecidableEq, Repr

def toReportRow (r : Rationale) : ReportRow :=
  { unique_id := Validate.PersonToScan.hash r.entity_to_scan
    matched := decide (0 < r.matches)
    verdict := to_verdict r
    explanation := r.rationaleText
    need_explanation := r.no_rationale }

/-- add_rationale of src/validate.py lines 438-489, restricted to its derived
columns: build every rationale row (aborting on the first cache error), then
the five derived columns per row and the two running totals. -/
def add_rationale (cache : Cache) (entities : List PersonToScan) :
    Except CacheError (List ReportRow × Nat × Nat) :=
  match rationaleRows cache entities with
  | .error err => .error err
  | .ok rationales =>
      .ok (rationales.map toReportRow,
           (rationales.map Rationale.matches).sum,
           (rationales.map Rationale.explained).sum)

/-! ### Screening client (src/validate.py lines 299-348)

send_request is modelled over an explicit file-system state.  The two files it
touches for a subject are hash.req.json and hash.resp.json; they are carried
as a tagged path type (for one hash the two paths never collide, matching the
distinct f-string suffixes).  JSON file content is carried parsed, as the
opaque Json record: log_request(json.dumps) followed by a later json.loads
round-trips, so storing the parsed value is faithful.  number_of_matches is
the one field the log line reads, via dict.get with an Error default. -/

structure Json where
  numberOfMatches : Option Nat
  payload : String
deriving DecidableEq, Repr

/-- One entry of the cache directory as send_request sees it. -/
inductive CachePath
  | req (hash : String)
  | resp (hash : String)
deriving DecidableEq, Repr

/-- The cache directory as a map from path to parsed content. -/
def DirState := CachePath → Option Json

/-- Writing one file (open mode w truncates and rewrites). -/
def setFile (fs : DirState) (p : CachePath) (content : Json) : DirState :=
  fun q => if q = p then some content else fs q

/-- An HTTP response: status code and parsed body. -/
structure NetResponse where
  status : Nat
  body : Json
deriving DecidableEq, Repr

/-- response_json.get of number_of_matches with the Error default. -/
def matchesLabel (j : Json) : String :=
  match j.numberOfMatches with
  | some n => toString n
  | none => "Error"

/-- The console.log line of the success branch. -/
def checkedLine (index name : String) (j : Json) : String :=
  index ++ " checked " ++ name ++ " - " ++ matchesLabel j ++ " matches"

/-- The console.log line of the error branch (status code and response text). -/
def errorLine (hash name : String) (status : Nat) (text : String) : String :=
  "Error while sending request " ++ hash ++ ", " ++ name ++
    " to Namescan API: " ++ toString status ++ " - " ++ text

/-- send_request of src/validate.py lines 314-348.  Steps, in source order:
log_request writes hash.req.json unconditionally; if hash.resp.json exists the
response is file_response (status 201, body the file content) and no network
call happens, otherwise one requests.post is issued; a response with status
below 300 is logged and written to hash.resp.json, any other status only logs
an error.  Returns the new directory state, the number of network calls made
and the log lines emitted. -/
def send_request (api : Json → NetResponse) (hash name index : String)
    (entity_dict : Json) (fs : DirState) : DirState × Nat × List String :=
  let fs1 := setFile fs (.req hash) entity_dict
  let hit := fs1 (.resp hash)
  let resCalls : NetResponse × Nat :=
    match hit with
    | some cached => (⟨201, cached⟩, 0)
    | none => (api entity_dict, 1)
  let response := resCalls.1
  if response.status < 300 then
    (setFile fs1 (.resp hash) response.body, resCalls.2,
      [checkedLine index name response.body])
  else
    (fs1, resCalls.2, [errorLine hash name response.status response.body.payload])

/-! ### Age-aware cache freshness (modelled from the spec)

The age-aware file_response(file_path, max_days_old) that the tests exercise
is not part of src/validate.py (the snapshot there reads the file with no age
argument), so it is modelled from the spec here. -/

/-- Modelled from the spec: the response date carried by a cached file, as a
timezone-aware instant measured in whole days.  The payload Json record gains
a date through this wrapper rather than a source translation. -/
structure DatedJson where
  date : Int
  body : Json
deriving DecidableEq, Repr

/-- Modelled from the spec: file_response(file_path, max_days_old), missing
from src/validate.py.  age = now - response.date; a file older than
max_days_old is treated as absent (None), otherwise the age and the parsed
response are returned.  The function reads the store and returns it untouched:
the stale file is never deleted. -/
def file_response (store : CachePath → Option DatedJson) (p : CachePath)
    (now max_days_old : Int) : Option (Int × DatedJson) :=
  match store p with
  | none => none
  | some dj =>
      let age := now - dj.date
      if max_days_old < age then none else some (age, dj)

/-- Modelled from the spec: the cache-or-network resolve step of the Screening
Client built on the age-aware freshness check.  A fresh hit returns the cached
response with zero network calls; a miss or stale file triggers exactly one
API call, whose successful body replaces the file; on failure the store is
left as it was, stale file included. -/
def resolveWithAge (api : Json → NetResponse) (hash : String)
    (entity_dict : Json) (now max_days_old : Int)
    (store : CachePath → Option DatedJson) :
    (CachePath → Option DatedJson) × Nat × Option (Int × Json) :=
  match file_response store (.resp hash) now max_days_old with
  | some (age, dj) => (store, 0, some (age, dj.body))
  | none =>
      let response := api entity_dict
      if response.status < 300 then
        (fun q => if q = CachePath.resp hash then
            some ⟨now, response.body⟩ else store q,
          1, some (0, response.body))
      else
        (store, 1, none)

/-! ### Concrete fixtures -/

/-- A neutral matched person: no trigger of any rationale rule fires. -/
def basePerson : Person :=
  { name := "X", update_at := none, category := "", deceased := false,
    deceased_date := none, gender := none, original_script_name := none,
    dates_of_birth := [], places_of_birth := [], reference_type := "",
    references := [], program := none, occupations := [],
    political_parties := [], roles := [], nationality := "",
    citizenship := "", other_names := [], summary := none, match_rate := 0 }

/-- The Muhammad Ali subject of the hash scenario. -/
def aliPerson : PersonToScan :=
  { name := "Muhammad Ali", first_name := some "Muhammad",
    middle_name := none, last_name := some "Ali", gender := some .male,
    dob := none, country := "Indonesia", list_type := none,
    included_lists := none, excluded_lists := none, match_rate := 50 }

/-! ### C1: verdict computation -/

/-- C1 counterexample: a subject row with zero matches has explained equal to
matches (both zero), so to_verdict takes its first branch and returns
False positive, not No match — refuting the claim that a zero-match row is
classified No match and never False positive. -/
theorem C1_counterexample :
    Rationale.matches ⟨aliPerson, []⟩ = 0 ∧
    to_verdict ⟨aliPerson, []⟩ = "False positive" ∧
    to_verdict ⟨aliPerson, []⟩ ≠ "No match" := by
  decide

/-- C1 amended: the verdict is False positive exactly when every match was
explained, which includes every zero-match row since its explained count and
match count are both zero; the No match branch is unreachable, and any row
with an unexplained match gets Needs explanation. -/
theorem C1_verdict_amended (s : PersonToScan)
    (l : List (Person × Option String)) :
    (to_verdict ⟨s, l⟩ = "False positive" ↔
      Rationale.explained ⟨s, l⟩ = Rationale.matches ⟨s, l⟩) ∧
    (Rationale.matches ⟨s, l⟩ = 0 → to_verdict ⟨s, l⟩ = "False positive") ∧
    to_verdict ⟨s, l⟩ ≠ "No match" ∧
    (Rationale.explained ⟨s, l⟩ ≠ Rationale.matches ⟨s, l⟩ →
      to_verdict ⟨s, l⟩ = "Needs explanation") := by
  simp only [to_verdict, Rationale.explained, Rationale.matches]
  by_cases h : (l.filter fun me => me.2.isSome).length = l.length
  · simp [h]
  · have hm : l.length ≠ 0 := by
      intro h0
      exact h (by simp [List.length_eq_zero.mp h0])
    simp [h, hm]

/-- C1 amended witness: a row with one unexplained match is classified
Needs explanation. -/
theorem C1_verdict_amended_witness :
    to_verdict ⟨aliPerson, [(basePerson, none)]⟩ = "Needs explanation" :=
  (C1_verdict_amended aliPerson [(basePerson, none)]).2.2.2 (by decide)

/-! ### C6: deceased rule strictly first -/

/-- C6: a deceased person always gets the Deceased rationale, in both the
src/models.py and the src/validate.py rule chain, regardless of every other
attribute — in particular a deceased politician never reaches the politician
branch. -/
theorem C6_deceased_priority (p : Person) (h : p.deceased = true) :
    Models.Person.rationale p =
      some ("Deceased " ++ pyOptStr p.deceased_date) ∧
    Validate.Person.rationale p =
      some ("Deceased " ++ pyOptStr p.deceased_date) := by
  simp [Models.Person.rationale, Validate.Person.rationale, h]

/-- A deceased politician with party, foreign citizenship and summary. -/
def deceasedPolitician : Person :=
  { basePerson with
    deceased := true
    deceased_date := some "2001-02-03"
    occupations := ["politician"]
    citizenship := "France"
    summary := some "S" }

/-- C6 witness: the deceased politician reports Deceased 2001-02-03 under
both rule chains. -/
theorem C6_deceased_priority_witness :
    Models.Person.rationale deceasedPolitician = some "Deceased 2001-02-03" ∧
    Validate.Person.rationale deceasedPolitician =
      some "Deceased 2001-02-03" := by
  have h := C6_deceased_priority deceasedPolitician rfl
  exact ⟨h.1.trans rfl, h.2.trans rfl⟩

/-! ### C10: the content hash is not injective -/

/-- The Ali subject with a dashed date of birth. -/
def dashPerson1 : PersonToScan := { aliPerson with dob := some "1981-09-21" }

/-- The Ali subject with the same date of birth written without dashes. -/
def dashPerson2 : PersonToScan := { aliPerson with dob := some "19810921" }

/-- C10: two subjects with different dob field contents have the same
src/models.py hash, because every dash is stripped before the separator-free
concatenation is digested — the cache key does not separate them. -/
theorem C10_hash_collision :
    dashPerson1.dob ≠ dashPerson2.dob ∧
    Models.PersonToScan.hash dashPerson1 =
      Models.PersonToScan.hash dashPerson2 := by
  constructor
  · decide
  · simp only [Models.PersonToScan.hash]
    exact congrArg md5str (by decide)

/-! ### C2: rule-chain priority order -/

/-- A living politician with foreign citizenship and no other trigger. -/
def foreignPolitician : Person :=
  { basePerson with
    occupations := ["politician"]
    citizenship := "United States"
    summary := some "S" }

/-- C2 counterexample: under the src/models.py rule chain a living politician
with foreign citizenship and no script or program trigger gets
Foreigner: United States, not the politician composed message the claim
predicts for every person entity. -/
theorem C2_counterexample :
    Models.Person.rationale foreignPolitician =
      some "Foreigner: United States" ∧
    Models.Person.rationale foreignPolitician ≠
      some foreignPolitician.politician_summary ∧
    Validate.Person.rationale foreignPolitician =
      some foreignPolitician.politician_summary := by
  decide

/-- C2 amended: the src/validate.py chain runs deceased, original script,
syr program, politician, roles, citizenship with first match winning —
a living politician with foreign citizenship gets the politician message
there — while the src/models.py chain checks citizenship before the
politician and roles rules, so the same person gets Foreigner there. -/
theorem C2_rationale_order :
    (∀ p : Person, p.deceased = false →
      truthyOpt p.original_script_name = false → p.syrTrigger = false →
      "politician" ∈ p.occupations →
      Validate.Person.rationale p = some p.politician_summary) ∧
    (∀ (p : Person) (role : Role) (rest : List Role), p.deceased = false →
      truthyOpt p.original_script_name = false → p.syrTrigger = false →
      "politician" ∉ p.occupations →
      p.roles = role :: rest →
      Validate.Person.rationale p = some ("Public figure: " ++ role.title)) ∧
    (∀ p : Person, p.deceased = false →
      truthyOpt p.original_script_name = false → p.syrTrigger = false →
      "politician" ∉ p.occupations → p.roles = [] →
      p.foreignTrigger = true →
      Validate.Person.rationale p = some ("Foreigner: " ++ p.citizenship)) ∧
    (∀ p : Person, p.deceased = false →
      truthyOpt p.original_script_name = false → p.syrTrigger = false →
      "politician" ∉ p.occupations → p.roles = [] →
      p.foreignTrigger = false →
      Validate.Person.rationale p = none) ∧
    (∀ p : Person, p.deceased = false →
      truthyOpt p.original_script_name = false → p.syrTrigger = false →
      p.foreignTrigger = true →
      Models.Person.rationale p = some ("Foreigner: " ++ p.citizenship)) := by
  refine ⟨?_, ?_, ?_, ?_, ?_⟩
  · intro p hd ho hs h4
    simp [Validate.Person.rationale, hd, ho, hs, h4]
  · intro p role rest hd ho hs h4 hr
    simp [Validate.Person.rationale, hd, ho, hs, h4, hr]
  · intro p hd ho hs h4 hr hf
    simp [Validate.Person.rationale, hd, ho, hs, h4, hr, hf]
  · intro p hd ho hs h4 hr hf
    simp [Validate.Person.rationale, hd, ho, hs, h4, hr, hf]
  · intro p hd ho hs hf
    simp [Models.Person.rationale, hd, ho, hs, hf]

/-- C2 amended witness: the foreign politician fixture gets the politician
message from the src/validate.py chain. -/
theorem C2_rationale_order_witness :
    Validate.Person.rationale foreignPolitician = some "Politician, S" := by
  have h := C2_rationale_order.1 foreignPolitician (by decide) (by decide)
    (by decide) (by decide)
  exact h.trans (by decide)

/-! ### C8: politician summary composition -/

/-- The politician scenario entity: free-text summary present, no party. -/
def dahlanPerson : Person :=
  { basePerson with
    name := "Dahlan M. Noer"
    occupations := ["politician"]
    summary := some "Dahlan M. Noer, male, born 1957-10-10, in Bima" }

/-- C8: the politician scenario produces the base summary with no affiliation
suffix under both rule chains; in general a truthy free-text summary with no
political party yields Politician-comma-summary, and with the summary absent
the composed summary is name (or the comma-joined alias names) then gender
then first date of birth then first birthplace, empty clauses omitted. -/
theorem C8_politician_summary :
    (Validate.Person.rationale dahlanPerson =
      some "Politician, Dahlan M. Noer, male, born 1957-10-10, in Bima" ∧
     Models.Person.rationale dahlanPerson =
      some "Politician, Dahlan M. Noer, male, born 1957-10-10, in Bima") ∧
    (∀ (p : Person) (s : String), p.deceased = false →
      truthyOpt p.original_script_name = false → p.syrTrigger = false →
      "politician" ∈ p.occupations → p.summary = some s →
      s ≠ "" → p.political_parties = [] →
      Validate.Person.rationale p = some ("Politician, " ++ s)) ∧
    (∀ (p : Person) (g : Gender) (d : DateOfBirth) (ds : List DateOfBirth)
      (pl : PlaceOfBirth) (pls : List PlaceOfBirth), p.summary = none →
      p.other_names = [] → p.gender = some g → p.dates_of_birth = d :: ds →
      p.places_of_birth = pl :: pls →
      Person.entity_summary p =
        p.name ++ (", " ++ g.value) ++ (", born " ++ d.date) ++
          (", in " ++ pl.location)) ∧
    (∀ p : Person, p.summary = none → p.other_names = [] → p.gender = none →
      p.dates_of_birth = [] → p.places_of_birth = [] →
      Person.entity_summary p = p.name) ∧
    (∀ (p : Person) (o : OtherName) (os : List OtherName), p.summary = none →
      p.other_names = o :: os → p.gender = none → p.dates_of_birth = [] →
      p.places_of_birth = [] →
      Person.entity_summary p =
        String.intercalate ", " ((o :: os).map (fun x => x.name))) := by
  refine ⟨by decide, ?_, ?_, ?_, ?_⟩
  · intro p s hd ho hs hp hsum hne hpp
    have ht : truthyOpt p.summary = true := by
      rw [hsum]; simp [truthyOpt, hne]
    have hoe : orEmpty p.summary = s := by rw [hsum]; rfl
    simp [Validate.Person.rationale, Person.politician_summary,
      Person.entity_summary, hd, ho, hs, hp, hpp, ht, hoe]
  · intro p g d ds pl pls hsum hnames hg hdob hpob
    simp [Person.entity_summary, truthyOpt, hsum, hnames, hg, hdob, hpob]
  · intro p hsum hnames hg hdob hpob
    simp [Person.entity_summary, truthyOpt, hsum, hnames, hg, hdob, hpob]
  · intro p o os hsum hnames hg hdob hpob
    simp [Person.entity_summary, truthyOpt, hsum, hnames, hg, hdob, hpob]

/-! ### C7: the Muhammad Ali hash scenario -/

set_option maxRecDepth 10000 in
/-- C7: the Muhammad Ali subject hashes to fded17b8481e0691f4a96e3af2938a41
under both snapshots of PersonToScan.hash, and in general the hash is a
function of only the name, dob, first-name, last-name and gender fields. -/
theorem C7_hash_scenario :
    (Validate.PersonToScan.hash aliPerson =
      "fded17b8481e0691f4a96e3af2938a41" ∧
     Models.PersonToScan.hash aliPerson =
      "fded17b8481e0691f4a96e3af2938a41") ∧
    (∀ p q : PersonToScan, p.name = q.name → p.dob = q.dob →
      p.first_name = q.first_name → p.last_name = q.last_name →
      p.gender = q.gender →
      Validate.PersonToScan.hash p = Validate.PersonToScan.hash q ∧
      Models.PersonToScan.hash p = Models.PersonToScan.hash q) := by
  constructor
  · exact ⟨by decide, by decide⟩
  · intro p q h1 h2 h3 h4 h5
    constructor <;>
      simp [Validate.PersonToScan.hash, Models.PersonToScan.hash,
        h1, h2, h3, h4, h5]

/-- The Ali subject with different optional fields that the hash ignores. -/
def aliVariant : PersonToScan :=
  { aliPerson with
    middle_name := some "Husain"
    country := "Egypt"
    match_rate := 80 }

/-- C7 witness: changing middle name, country and match rate leaves both
hashes unchanged. -/
theorem C7_hash_scenario_witness :
    Validate.PersonToScan.hash aliVariant =
      Validate.PersonToScan.hash aliPerson ∧
    Models.PersonToScan.hash aliVariant =
      Models.PersonToScan.hash aliPerson :=
  C7_hash_scenario.2 aliVariant aliPerson rfl rfl rfl rfl rfl

/-! ### C3: a missing or malformed cache file during report building -/

/-- Is an Except a success? -/
def exceptOk {ε α : Type} : Except ε α → Bool
  | .ok _ => true
  | .error _ => false

/-- A cached scan result with no matches. -/
def emptyScan : PersonScanResult :=
  { date := "2023-07-06", scan_id := "s1", number_of_matches := 0,
    number_of_pep_matches := 0, number_of_sip_matches := 0, persons := [] }

/-- A subject whose cache file is absent. -/
def missingSubject : PersonToScan := { aliPerson with name := "Missing Person" }

/-- A cache directory holding only the Ali response. -/
def cacheC3 : Cache :=
  [(Validate.PersonToScan.hash aliPerson, CacheFile.scan emptyScan)]

set_option maxRecDepth 10000 in
/-- C3 counterexample: with the first subject's cache file missing and the
second present, add_rationale propagates the read error and produces no rows
at all — the batch aborts — although the second subject alone succeeds; no
zero-match row is recorded for the failing subject. -/
theorem C3_counterexample :
    add_rationale cacheC3 [missingSubject, aliPerson] =
      Except.error
        (CacheError.missingFile (Validate.PersonToScan.hash missingSubject)) ∧
    exceptOk (add_rationale cacheC3 [aliPerson]) = true := by
  exact ⟨by rfl, by rfl⟩

/-- C3 amended: when a subject of the batch has a missing or malformed cached
response file, create_rationale returns the error, and both the rationale row
loop and the whole add_rationale abort instead of recording a zero-match row
and continuing. -/
theorem C3_cache_error_aborts (cache : Cache) (es : List PersonToScan)
    (e : PersonToScan) (hmem : e ∈ es)
    (hfail : lookupCache cache (Validate.PersonToScan.hash e) = none ∨
      lookupCache cache (Validate.PersonToScan.hash e) =
        some CacheFile.malformed) :
    exceptOk (create_rationale cache e) = false ∧
    exceptOk (rationaleRows cache es) = false ∧
    exceptOk (add_rationale cache es) = false := by
  have hcr : ∃ err, create_rationale cache e = .error err := by
    rcases hfail with h | h
    · exact ⟨CacheError.missingFile (Validate.PersonToScan.hash e),
        by simp [create_rationale, h]⟩
    · exact ⟨CacheError.badJson (Validate.PersonToScan.hash e),
        by simp [create_rationale, h]⟩
  have hrows : ∀ l : List PersonToScan, e ∈ l →
      exceptOk (rationaleRows cache l) = false := by
    intro l
    induction l with
    | nil => intro h; cases h
    | cons a as ih =>
      intro hin
      rcases List.mem_cons.mp hin with rfl | hmem2
      · rcases hcr with ⟨err, hca⟩
        simp [rationaleRows, hca, exceptOk]
      · cases hcra : create_rationale cache a with
        | error err => simp [rationaleRows, hcra, exceptOk]
        | ok r =>
          have htail := ih hmem2
          cases hrr : rationaleRows cache as with
          | error err => simp [rationaleRows, hcra, hrr, exceptOk]
          | ok rs => rw [hrr] at htail; simp [exceptOk] at htail
  refine ⟨?_, hrows es hmem, ?_⟩
  · rcases hcr with ⟨err, hca⟩
    simp [hca, exceptOk]
  · have h := hrows es hmem
    cases hrr : rationaleRows cache es with
    | error err => simp [add_rationale, hrr, exceptOk]
    | ok rs => rw [hrr] at h; simp [exceptOk] at h

set_option maxRecDepth 10000 in
/-- C3 amended witness: the two-subject batch with a missing first cache file
aborts at every level. -/
theorem C3_cache_error_aborts_witness :
    exceptOk (add_rationale cacheC3 [missingSubject, aliPerson]) = false :=
  (C3_cache_error_aborts cacheC3 [missingSubject, aliPerson] missingSubject
    (by decide) (Or.inl (by rfl))).2.2

/-- C8 witness: a politician with a truthy summary, no party, but with roles
and foreign citizenship still gets Politician-comma-summary (rule 4 composes
from the summary and nothing else fires first). -/
theorem C8_politician_summary_witness :
    Validate.Person.rationale
      { dahlanPerson with
        roles := [⟨"Governor"⟩]
        citizenship := "France" } =
      some "Politician, Dahlan M. Noer, male, born 1957-10-10, in Bima" := by
  have h := C8_politician_summary.2.1
    { dahlanPerson with
      roles := [⟨"Governor"⟩]
      citizenship := "France" }
    "Dahlan M. Noer, male, born 1957-10-10, in Bima"
    (by decide) (by decide) (by decide) (by decide) (by decide) (by decide)
    (by decide)
  exact h.trans (by decide)

/-! ### Helper lemmas for the send_request state model -/

theorem setFile_self (fs : DirState) (p : CachePath) (c : Json) :
    setFile fs p c p = some c := by
  simp [setFile]

theorem setFile_ne (fs : DirState) (p q : CachePath) (c : Json)
    (h : q ≠ p) : setFile fs p c q = fs q := by
  simp [setFile, h]

theorem resp_ne_req (h : String) :
    (CachePath.resp h) ≠ (CachePath.req h) := by
  simp

theorem prodFst3 {α β γ : Type} (a : α) (b : β) (c : γ) :
    (a, b, c).1 = a := rfl

/-- Behaviour of send_request when the cached response file is present. -/
theorem send_request_hit (api : Json → NetResponse)
    (hash name index : String) (d : Json) (fs : DirState) (cached : Json)
    (h : fs (.resp hash) = some cached) :
    send_request api hash name index d fs =
      (setFile (setFile fs (.req hash) d) (.resp hash) cached, 0,
        [checkedLine index name cached]) := by
  have h1 : (setFile fs (.req hash) d) (.resp hash) = some cached := by
    rw [setFile_ne fs (.req hash) (.resp hash) d (by simp)]
    exact h
  simp [send_request, h1]

/-- Behaviour of send_request on a cache miss with a success response. -/
theorem send_request_miss_ok (api : Json → NetResponse)
    (hash name index : String) (d : Json) (fs : DirState)
    (h : fs (.resp hash) = none) (hs : (api d).status < 300) :
    send_request api hash name index d fs =
      (setFile (setFile fs (.req hash) d) (.resp hash) (api d).body, 1,
        [checkedLine index name (api d).body]) := by
  have h1 : (setFile fs (.req hash) d) (.resp hash) = none := by
    rw [setFile_ne fs (.req hash) (.resp hash) d (by simp)]
    exact h
  simp [send_request, h1, hs]

/-- Behaviour of send_request on a cache miss with an error response. -/
theorem send_request_miss_err (api : Json → NetResponse)
    (hash name index : String) (d : Json) (fs : DirState)
    (h : fs (.resp hash) = none) (hs : ¬ (api d).status < 300) :
    send_request api hash name index d fs =
      (setFile fs (.req hash) d, 1,
        [errorLine hash name (api d).status (api d).body.payload]) := by
  have h1 : (setFile fs (.req hash) d) (.resp hash) = none := by
    rw [setFile_ne fs (.req hash) (.resp hash) d (by simp)]
    exact h
  simp [send_request, h1, hs]

/-! ### C5: resolving twice with a cache hit -/

/-- C5: after one successful send_request for a subject, a second identical
call issues zero network calls, logs the same output, leaves every file of
the directory in the same state as after the first call, and on every call —
hit or miss — the hash.req.json audit file ends up holding the request body
just sent. -/
theorem C5_resolve_idempotent (api : Json → NetResponse)
    (hash name index : String) (entity_dict : Json) (fs0 : DirState)
    (hok : (api entity_dict).status < 300) :
    (send_request api hash name index entity_dict
      (send_request api hash name index entity_dict fs0).1).2.1 = 0 ∧
    (send_request api hash name index entity_dict
      (send_request api hash name index entity_dict fs0).1).2.2 =
      (send_request api hash name index entity_dict fs0).2.2 ∧
    (∀ q, (send_request api hash name index entity_dict
      (send_request api hash name index entity_dict fs0).1).1 q =
      (send_request api hash name index entity_dict fs0).1 q) ∧
    (∀ anyfs : DirState,
      (send_request api hash name index entity_dict anyfs).1 (.req hash) =
        some entity_dict) := by
  have hreq : ∀ anyfs : DirState,
      (send_request api hash name index entity_dict anyfs).1 (.req hash) =
        some entity_dict := by
    intro anyfs
    cases hm : anyfs (.resp hash) with
    | some cached =>
      rw [send_request_hit api hash name index entity_dict anyfs cached hm,
        prodFst3]
      rw [setFile_ne _ _ _ _ (Ne.symm (resp_ne_req hash))]
      exact setFile_self anyfs (.req hash) entity_dict
    | none =>
      by_cases hs : (api entity_dict).status < 300
      · rw [send_request_miss_ok api hash name index entity_dict anyfs hm hs,
          prodFst3]
        rw [setFile_ne _ _ _ _ (Ne.symm (resp_ne_req hash))]
        exact setFile_self anyfs (.req hash) entity_dict
      · rw [send_request_miss_err api hash name index entity_dict anyfs hm hs,
          prodFst3]
        exact setFile_self anyfs (.req hash) entity_dict
  -- after the first call the response file holds some body b, and the first
  -- log line is the checked line for b
  have hfirst : ∃ b : Json,
      (send_request api hash name index entity_dict fs0).1 (.resp hash) =
        some b ∧
      (send_request api hash name index entity_dict fs0).2.2 =
        [checkedLine index name b] ∧
      (∀ q, q ≠ CachePath.resp hash → q ≠ CachePath.req hash →
        (send_request api hash name index entity_dict fs0).1 q = fs0 q) := by
    cases hm : fs0 (.resp hash) with
    | some cached =>
      refine ⟨cached, ?_, ?_, ?_⟩
      · rw [send_request_hit api hash name index entity_dict fs0 cached hm]
        exact setFile_self _ _ _
      · rw [send_request_hit api hash name index entity_dict fs0 cached hm]
      · intro q hq1 hq2
        rw [send_request_hit api hash name index entity_dict fs0 cached hm,
          prodFst3]
        rw [setFile_ne _ _ _ _ hq1, setFile_ne _ _ _ _ hq2]
    | none =>
      refine ⟨(api entity_dict).body, ?_, ?_, ?_⟩
      · rw [send_request_miss_ok api hash name index entity_dict fs0 hm hok]
        exact setFile_self _ _ _
      · rw [send_request_miss_ok api hash name index entity_dict fs0 hm hok]
      · intro q hq1 hq2
        rw [send_request_miss_ok api hash name index entity_dict fs0 hm hok,
          prodFst3]
        rw [setFile_ne _ _ _ _ hq1, setFile_ne _ _ _ _ hq2]
  rcases hfirst with ⟨b, hb, hlog, hrest⟩
  have hsecond := send_request_hit api hash name index entity_dict
    (send_request api hash name index entity_dict fs0).1 b hb
  refine ⟨by rw [hsecond], by rw [hsecond, hlog], ?_, hreq⟩
  intro q
  rw [hsecond, prodFst3]
  by_cases hq1 : q = CachePath.resp hash
  · subst hq1
    rw [setFile_self, hb]
  · by_cases hq2 : q = CachePath.req hash
    · subst hq2
      rw [setFile_ne _ _ _ _ (Ne.symm (resp_ne_req hash)), setFile_self,
        hreq fs0]
    · rw [setFile_ne _ _ _ _ hq1, setFile_ne _ _ _ _ hq2]

/-- A network stub returning a success response. -/
def apiOkW : Json → NetResponse := fun _ => ⟨200, ⟨some 3, "body"⟩⟩

/-- A request body fixture. -/
def dictW : Json := ⟨none, "request"⟩

/-- C5 witness: starting from an empty directory, the second identical call
makes zero network calls and the audit file holds the request body. -/
theorem C5_resolve_idempotent_witness :
    (send_request apiOkW "h" "Ali" "0" dictW
      (send_request apiOkW "h" "Ali" "0" dictW (fun _ => none)).1).2.1 = 0 ∧
    (send_request apiOkW "h" "Ali" "0" dictW (fun _ => none)).1
      (.req "h") = some dictW := by
  have h := C5_resolve_idempotent apiOkW "h" "Ali" "0" dictW
    (fun _ => none) (by decide)
  exact ⟨h.1, h.2.2.2 (fun _ => none)⟩

/-! ### C9: a non-success API response leaves no cached response file -/

/-- C9: when the response file is absent and the API answers with a status of
300 or more, send_request makes the one network call, writes nothing at
hash.resp.json — the error body is never cached — while hash.req.json has
been written unconditionally before the call, and touches no other file. -/
theorem C9_error_no_cache_write (api : Json → NetResponse)
    (hash name index : String) (d : Json) (fs0 : DirState)
    (habsent : fs0 (.resp hash) = none) (herr : 300 ≤ (api d).status) :
    (send_request api hash name index d fs0).1 (.resp hash) = none ∧
    (send_request api hash name index d fs0).1 (.req hash) = some d ∧
    (send_request api hash name index d fs0).2.1 = 1 ∧
    (∀ q, q ≠ CachePath.req hash →
      (send_request api hash name index d fs0).1 q = fs0 q) := by
  have hs : ¬ (api d).status < 300 := by omega
  rw [send_request_miss_err api hash name index d fs0 habsent hs]
  refine ⟨?_, setFile_self _ _ _, rfl, ?_⟩
  · show setFile fs0 (.req hash) d (.resp hash) = none
    exact (setFile_ne _ _ _ _ (resp_ne_req hash)).trans habsent
  · intro q hq
    show setFile fs0 (.req hash) d q = fs0 q
    exact setFile_ne _ _ _ _ hq

/-- A network stub returning a server error. -/
def apiFailW : Json → NetResponse := fun _ => ⟨500, ⟨none, "server error"⟩⟩

/-- C9 witness: with an empty directory and a 500 response, the response file
stays absent and the request audit file is written. -/
theorem C9_error_no_cache_write_witness :
    (send_request apiFailW "h" "Ali" "0" dictW (fun _ => none)).1
      (.resp "h") = none ∧
    (send_request apiFailW "h" "Ali" "0" dictW (fun _ => none)).1
      (.req "h") = some dictW := by
  have h := C9_error_no_cache_write apiFailW "h" "Ali" "0" dictW
    (fun _ => none) rfl (by decide)
  exact ⟨h.1, h.2.1⟩

/-! ### C4: age-based cache freshness (spec-modelled) -/

/-- C4 (the freshness check is spec-modelled, see file_response above): a
cached response older than max_days_old is treated as absent, so the resolve
step re-calls the API once, and even a failing re-call leaves the stale file
in place; a response within max_days_old is returned with its age, no network
call is made, the store is untouched, and the age is positive whenever the
response is dated in the past. -/
theorem C4_cache_freshness (api : Json → NetResponse) (hash : String)
    (d : Json) (now max_days_old : Int)
    (store : CachePath → Option DatedJson) (dj : DatedJson)
    (hfile : store (.resp hash) = some dj) :
    (max_days_old < now - dj.date →
      file_response store (.resp hash) now max_days_old = none ∧
      (resolveWithAge api hash d now max_days_old store).2.1 = 1 ∧
      (300 ≤ (api d).status →
        (resolveWithAge api hash d now max_days_old store).1 (.resp hash) =
          some dj)) ∧
    (now - dj.date ≤ max_days_old →
      file_response store (.resp hash) now max_days_old =
        some (now - dj.date, dj) ∧
      (resolveWithAge api hash d now max_days_old store).2.1 = 0 ∧
      (resolveWithAge api hash d now max_days_old store).1 = store ∧
      (resolveWithAge api hash d now max_days_old store).2.2 =
        some (now - dj.date, dj.body) ∧
      (dj.date < now → 0 < now - dj.date)) := by
  constructor
  · intro hstale
    have hfr : file_response store (.resp hash) now max_days_old = none := by
      simp [file_response, hfile, hstale]
    refine ⟨hfr, ?_, ?_⟩
    · by_cases hs : (api d).status < 300 <;>
        simp [resolveWithAge, hfr, hs]
    · intro herr
      have hs : ¬ (api d).status < 300 := by omega
      simp [resolveWithAge, hfr, hs, hfile]
  · intro hfresh
    have hnot : ¬ max_days_old < now - dj.date := by omega
    have hfr : file_response store (.resp hash) now max_days_old =
        some (now - dj.date, dj) := by
      simp [file_response, hfile, hnot]
    refine ⟨hfr, ?_, ?_, ?_, ?_⟩
    · simp [resolveWithAge, hfr]
    · simp [resolveWithAge, hfr]
    · simp [resolveWithAge, hfr]
    · intro hpast
      omega

/-- A cached response dated day 100 with its parsed body. -/
def storedW : DatedJson := ⟨100, ⟨some 2, "resp"⟩⟩

/-- A store holding only the response file for hash h. -/
def storeW : CachePath → Option DatedJson :=
  fun q => if q = CachePath.resp "h" then some storedW else none

/-- C4 witness: at day 105 the file is stale for max_days_old = 1 (treated as
absent, still on disk after a failing re-call) and fresh for the sys.maxsize
bound, returned with the positive age 5. -/
theorem C4_cache_freshness_witness :
    file_response storeW (.resp "h") 105 1 = none ∧
    (resolveWithAge apiFailW "h" dictW 105 1 storeW).1 (.resp "h") =
      some storedW ∧
    file_response storeW (.resp "h") 105 9223372036854775807 =
      some (5, storedW) ∧
    (0 : Int) < 5 := by
  have h1 := C4_cache_freshness apiFailW "h" dictW 105 1 storeW storedW rfl
  have h2 := C4_cache_freshness apiFailW "h" dictW 105 9223372036854775807
    storeW storedW rfl
  refine ⟨(h1.1 (by decide)).1, (h1.1 (by decide)).2.2 (by decide), ?_, ?_⟩
  · exact ((h2.2 (by decide)).1).trans (by decide)
  · exact (h2.2 (by decide)).2.2.2.2 (by decide)
